import Mathlib

/-!
Verification development for the MLS-MPM particle simulation repository
(`src/app.js`, `src/conf.js` / `particleRenderer.js`, `src/mls-mpm/*`).

Shallow embedding conventions:
* JavaScript numbers are modelled as exact rationals (`ℚ`); every claim
  settled here is an order/sign/equality property whose truth does not
  depend on rounding.
* The mutable `Conf` singleton is modelled as an immutable structure with
  explicit state-passing; GUI/event callbacks become functions
  `Conf → ... → Conf`.
* Observable external effects (creating a `GravitySensor`, refreshing the
  GUI) are modelled by counter/Option fields so that "no effect happened"
  is expressible as state equality.
* `src/mls-mpm/mlsMpmSimulator.js` is not part of the provided sources
  (only its callers and design documents are); the pieces of the simulator
  that claims C2 and C3 need are modelled from the specification and are
  marked `Modelled from the spec:` in their doc comments.
-/

/-- 3-component vector over exact rationals (models `THREE.Vector3`). -/
structure Vec3 where
  x : ℚ
  y : ℚ
  z : ℚ
deriving DecidableEq, Repr

/-- The zero vector, the state of `new THREE.Vector3()`. -/
def Vec3.zero : Vec3 := ⟨0, 0, 0⟩

/-- Componentwise addition. -/
def Vec3.add (a b : Vec3) : Vec3 := ⟨a.x + b.x, a.y + b.y, a.z + b.z⟩

/-- Scalar multiplication. -/
def Vec3.smul (t : ℚ) (v : Vec3) : Vec3 := ⟨t * v.x, t * v.y, t * v.z⟩

/-- Dot product (models `THREE.Vector3.dot`). -/
def Vec3.dot (a b : Vec3) : ℚ := a.x * b.x + a.y * b.y + a.z * b.z

/-- A browser `GravitySensor` object as observable from `conf.js`:
its construction frequency and whether `start()` has been called. -/
structure GravitySensor where
  frequency : ℕ
  started : Bool
deriving DecidableEq, Repr

/-- Configuration state of the `Conf` class in `src/conf.js`.

`actualSize` is intentionally not carried: the source computes it as
`1.6 / Math.pow(level, 1/3) * size`, an irrational cube root, it is a
derived rendering-only quantity, and no claim refers to it.
`sensorsCreated` counts `new GravitySensor(...)` constructions and
`guiRefreshes` counts `gui.refresh()` calls; both model otherwise
invisible external effects. -/
structure Conf where
  maxParticles : ℚ
  particles : ℚ
  bloom : Bool
  run : Bool
  noise : ℚ
  speed : ℚ
  stiffness : ℚ
  restDensity : ℚ
  density : ℚ
  dynamicViscosity : ℚ
  gravity : ℕ
  gravitySensorReading : Vec3
  accelerometerReading : Vec3
  size : ℚ
  points : Bool
  chromaticAberration : ℚ
  fogNear : ℚ
  fogFar : ℚ
  bloomStrength : ℚ
  bloomThreshold : ℚ
  exposure : ℚ
  filmGrainIntensity : ℚ
  sizeVariation : ℚ
  opacityVariation : ℚ
  depthBrightness : ℚ
  vignetteIntensity : ℚ
  gravitySensor : Option GravitySensor
  sensorsCreated : ℕ
  guiRefreshes : ℕ

/-- The class-field initializers of `Conf` (`src/conf.js`). -/
def Conf.defaults : Conf where
  maxParticles := 8192 * 16
  particles := 8192 * 8
  bloom := true
  run := true
  noise := 2/5
  speed := 3/2
  stiffness := 3
  restDensity := 1
  density := 2
  dynamicViscosity := 1/10
  gravity := 1
  gravitySensorReading := Vec3.zero
  accelerometerReading := Vec3.zero
  size := 3/5
  points := false
  chromaticAberration := 8/10000
  fogNear := 1/10
  fogFar := 22/10
  bloomStrength := 1/2
  bloomThreshold := 1/10
  exposure := 1
  filmGrainIntensity := 8/100
  sizeVariation := 1/4
  opacityVariation := 1/5
  depthBrightness := 1/2
  vignetteIntensity := 3/10
  gravitySensor := none
  sensorsCreated := 0
  guiRefreshes := 0

/-- `Conf.updateParams`: `level = Math.max(this.particles / 8192, 1)`;
`this.restDensity = 0.25 * level * this.density`.
(The `actualSize` assignment is not carried, see `Conf`.) -/
def Conf.updateParams (c : Conf) : Conf :=
  { c with restDensity := 1/4 * max (c.particles / 8192) 1 * c.density }

/-- The `Conf` constructor: on mobile `maxParticles = 8192 * 8` and
`particles = 4096`; then `this.updateParams()`. -/
def Conf.new (isMobile : Bool) : Conf :=
  let c := Conf.defaults
  let c := if isMobile then { c with maxParticles := 8192 * 8, particles := 4096 } else c
  c.updateParams

/-- One preset record of `Conf.applyPreset`; `particles` is present only
in the Dense Cloud and Light Mist presets. -/
structure Preset where
  noise : ℚ
  speed : ℚ
  size : ℚ
  density : ℚ
  exposure : ℚ
  bloomStrength : ℚ
  chromaticAberration : ℚ
  fogNear : ℚ
  fogFar : ℚ
  particles : Option ℚ
deriving DecidableEq, Repr

/-- The own enumerable entries of the `presets` object literal in
`Conf.applyPreset`: the four named preset records. (A JavaScript lookup
`presets[name]` also consults the prototype chain; see `presetLookup`.) -/
def presetTable (name : String) : Option Preset :=
  if name = "Calm" then
    some { noise := 3/10, speed := 1/2, size := 1/2, density := 8/10,
           exposure := 9/10, bloomStrength := 3/10, chromaticAberration := 2/1000,
           fogNear := 4/10, fogFar := 2, particles := none }
  else if name = "Storm" then
    some { noise := 3/2, speed := 14/10, size := 6/10, density := 12/10,
           exposure := 12/10, bloomStrength := 7/10, chromaticAberration := 6/1000,
           fogNear := 2/10, fogFar := 3/2, particles := none }
  else if name = "Dense Cloud" then
    some { noise := 1/2, speed := 6/10, size := 4/10, density := 3/2,
           exposure := 8/10, bloomStrength := 4/10, chromaticAberration := 3/1000,
           fogNear := 1/2, fogFar := 5/2, particles := some (8192 * 12) }
  else if name = "Light Mist" then
    some { noise := 8/10, speed := 7/10, size := 8/10, density := 6/10,
           exposure := 11/10, bloomStrength := 6/10, chromaticAberration := 4/1000,
           fogNear := 3/10, fogFar := 12/10, particles := some (8192 * 4) }
  else none

/-- The property names the `presets` object literal inherits from
`Object.prototype`: for these, the JavaScript lookup `presets[name]`
yields a truthy built-in (a function, or `Object.prototype` itself for
the last entry) rather than `undefined`. -/
def objectPrototypeKeys : List String :=
  ["constructor", "hasOwnProperty", "isPrototypeOf", "propertyIsEnumerable",
   "toLocaleString", "toString", "valueOf", "__defineGetter__",
   "__defineSetter__", "__lookupGetter__", "__lookupSetter__", "__proto__"]

/-- A truthy result of the JavaScript lookup `presets[name]`: either an
own entry of the literal (one of the four preset records), or a built-in
inherited from `Object.prototype` — truthy, but with no enumerable own
properties, so `Object.entries` of it is empty. -/
inductive PresetLookup where
  | ownPreset (p : Preset)
  | inherited
deriving DecidableEq, Repr

/-- The full JavaScript semantics of `presets[name]`: an own entry when
`name` is one of the four preset names, a truthy inherited built-in when
`name` is an `Object.prototype` property name, `undefined` otherwise. -/
def presetLookup (name : String) : Option PresetLookup :=
  match presetTable name with
  | some p => some (PresetLookup.ownPreset p)
  | none =>
    if name ∈ objectPrototypeKeys then some PresetLookup.inherited else none

/-- `Conf.applyPreset(name)`: if `presets[name]` is truthy, assign each of
its enumerable own entries onto `this` (every key of the four preset
records is a defined `Conf` field, so the `this[key] !== undefined` guard
always passes; an inherited built-in has no enumerable own entries, so
nothing is assigned), then `updateParams()` and `gui.refresh()`; only
when `presets[name]` is `undefined` does nothing at all happen. -/
def Conf.applyPreset (c : Conf) (name : String) : Conf :=
  match presetLookup name with
  | none => c
  | some PresetLookup.inherited =>
    let c := c.updateParams
    { c with guiRefreshes := c.guiRefreshes + 1 }
  | some (PresetLookup.ownPreset p) =>
    let c := { c with
      noise := p.noise, speed := p.speed, size := p.size, density := p.density,
      exposure := p.exposure, bloomStrength := p.bloomStrength,
      chromaticAberration := p.chromaticAberration,
      fogNear := p.fogNear, fogFar := p.fogFar }
    let c := match p.particles with
      | some n => { c with particles := n }
      | none => c
    let c := c.updateParams
    { c with guiRefreshes := c.guiRefreshes + 1 }

/-- `Conf.setupGravitySensor`: `if (this.gravitySensor) return;` else
construct a `GravitySensor({frequency: 60})`, register the reading
listener (modelled by `Conf.onGravitySensorReading` below) and `start()`. -/
def Conf.setupGravitySensor (c : Conf) : Conf :=
  match c.gravitySensor with
  | some _ => c
  | none =>
    { c with gravitySensor := some { frequency := 60, started := true },
             sensorsCreated := c.sensorsCreated + 1 }

/-- The gravity list blade of `Conf.init`: its four options. -/
def gravityOptions : List (String × ℕ) :=
  [("back", 0), ("down", 1), ("center", 2), ("device gravity", 3)]

/-- The gravity list `change` handler: `if (ev.value === 3)
this.setupGravitySensor(); this.gravity = ev.value;`. -/
def Conf.onGravityChange (c : Conf) (v : ℕ) : Conf :=
  let c := if v = 3 then c.setupGravitySensor else c
  { c with gravity := v }

/-- The `GravitySensor` `reading` listener: copy the sensor vector `s`,
divide by 50, then negate the Y component. -/
def Conf.onGravitySensorReading (c : Conf) (s : Vec3) : Conf :=
  let r : Vec3 := ⟨s.x / 50, s.y / 50, s.z / 50⟩
  { c with gravitySensorReading := { r with y := r.y * (-1) } }

/-- A `THREE.Plane`: unit-normal/constant representation `n · p + constant = 0`
(the normal is `(0,0,-1)` and the constant `0.2` in `App.init`). -/
structure Plane where
  normal : Vec3
  constant : ℚ
deriving DecidableEq, Repr

/-- The interaction plane built in `App.init`:
`new THREE.Plane(new THREE.Vector3(0, 0, -1), 0.2)`. -/
def appPlane : Plane := ⟨⟨0, 0, -1⟩, 1/5⟩

/-- `THREE.Ray.distanceToPlane` (three.js library semantics, called by
`App.onMouseMove`): `null` when the ray is parallel to the plane and not
in it, or when the intersection parameter is negative. -/
def rayDistanceToPlane (origin dir : Vec3) (pl : Plane) : Option ℚ :=
  let denominator := Vec3.dot pl.normal dir
  if denominator = 0 then
    if Vec3.dot pl.normal origin + pl.constant = 0 then some 0 else none
  else
    let t := -(Vec3.dot origin pl.normal + pl.constant) / denominator
    if 0 ≤ t then some t else none

/-- `THREE.Ray.intersectPlane` (three.js library semantics): the point
`origin + t * dir` when `distanceToPlane` is non-null, else `null`;
only in the non-null case is the target vector written. -/
def rayIntersectPlane (origin dir : Vec3) (pl : Plane) : Option Vec3 :=
  (rayDistanceToPlane origin dir pl).map (fun t => origin.add (Vec3.smul t dir))

/-- The simulator state touched by `MlsMpmSimulator.setMouseRay`: the last
interaction (origin, direction, point) pushed to it, if any. -/
structure SimMouseState where
  mouseRay : Option (Vec3 × Vec3 × Vec3)
deriving DecidableEq, Repr

/-- `MlsMpmSimulator.setMouseRay(origin, direction, point)`. -/
def setMouseRay (st : SimMouseState) (origin dir pt : Vec3) : SimMouseState :=
  { st with mouseRay := some (origin, dir, pt) }

/-- `App.onMouseMove` (src/app.js lines 180-190): builds the camera ray,
allocates a fresh zero `intersect` vector, lets
`ray.intersectPlane(plane, intersect)` write into it when an intersection
exists, then tests `if (intersect)` — which tests the pre-allocated
`Vector3` object, not the method's return value, and is therefore always
true — and calls `setMouseRay` unconditionally. -/
def App.onMouseMove (origin dir : Vec3) (pl : Plane) (st : SimMouseState) : SimMouseState :=
  let intersectTarget :=
    match rayIntersectPlane origin dir pl with
    | some p => p
    | none => Vec3.zero
  setMouseRay st origin dir intersectTarget

/-- Fold a (possibly empty) sequence of pointer-move events, each given by
its camera-ray origin and direction, over the simulator mouse state. -/
def processPointerMoves (moves : List (Vec3 × Vec3)) (pl : Plane) (st : SimMouseState) : SimMouseState :=
  moves.foldl (fun s od => App.onMouseMove od.1 od.2 pl s) st

/-- The externally observable actions of one `App.update(delta, elapsed)`
call, in program order (each `await` completes before the next statement
runs). -/
inductive AppEvent where
  | fpsBegin
  | setRendererVisibility
  | syncVisualParams
  | controlsUpdate
  | lightsUpdate
  | particleRendererUpdate
  | pointRendererUpdate
  | simUpdate (delta elapsed : ℚ)
  | renderPostProcessing
  | renderScene
  | fpsEnd
deriving DecidableEq, Repr

/-- `App.update(delta, elapsed)` (src/app.js lines 193-223) as its ordered
action trace: conf.begin, renderer visibility, visual-parameter sync,
controls/lights/renderer updates, `await mlsMpmSim.update(delta, elapsed)`,
then `await postProcessing.renderAsync()` when `conf.bloom` else
`await renderer.renderAsync(scene, camera)`, then conf.end. -/
def appUpdateTrace (bloom : Bool) (delta elapsed : ℚ) : List AppEvent :=
  [AppEvent.fpsBegin, AppEvent.setRendererVisibility, AppEvent.syncVisualParams,
   AppEvent.controlsUpdate, AppEvent.lightsUpdate,
   AppEvent.particleRendererUpdate, AppEvent.pointRendererUpdate,
   AppEvent.simUpdate delta elapsed]
  ++ (if bloom then [AppEvent.renderPostProcessing] else [AppEvent.renderScene])
  ++ [AppEvent.fpsEnd]

/-- Is this event the simulator advance? -/
def AppEvent.isSimUpdate : AppEvent → Bool
  | AppEvent.simUpdate _ _ => true
  | _ => false

/-- Is this event one of the two frame-render calls? -/
def AppEvent.isRender : AppEvent → Bool
  | AppEvent.renderPostProcessing => true
  | AppEvent.renderScene => true
  | _ => false

/-- Modelled from the spec: `mlsMpmSimulator.js` is not among the provided
sources, so the P2G-1 kernel is modelled from spec section 4.2. The base
cell index of a particle coordinate is the floor of `position - 0.5`. -/
def baseCell (x : ℚ) : ℤ := Int.floor (x - 1/2)

/-- Modelled from the spec: the fractional offset `fx = x - baseCell x`
from the base cell, the argument of the quadratic B-spline kernel. -/
def fracOffset (x : ℚ) : ℚ := x - baseCell x

/-- Modelled from the spec: the quadratic B-spline interpolation weights,
evaluated independently per axis, for the three cells `base + 0/1/2` of
one axis of the 3x3x3 stencil. -/
def bsplineW (fx : ℚ) : ℤ → ℚ
  | 0 => 1/2 * (3/2 - fx) ^ 2
  | 1 => 3/4 - (fx - 1) ^ 2
  | 2 => 1/2 * (fx - 1/2) ^ 2
  | _ => 0

/-- The 27 offsets of the 3x3x3 stencil. -/
def stencilOffsets : List (ℤ × ℤ × ℤ) :=
  [(0,0,0),(0,0,1),(0,0,2),(0,1,0),(0,1,1),(0,1,2),(0,2,0),(0,2,1),(0,2,2),
   (1,0,0),(1,0,1),(1,0,2),(1,1,0),(1,1,1),(1,1,2),(1,2,0),(1,2,1),(1,2,2),
   (2,0,0),(2,0,1),(2,0,2),(2,1,0),(2,1,1),(2,1,2),(2,2,0),(2,2,1),(2,2,2)]

/-- A 3x3 matrix as three rows, the particle affine/velocity-gradient
field `C` of the APIC transfer. -/
structure Mat3 where
  r0 : Vec3
  r1 : Vec3
  r2 : Vec3
deriving DecidableEq, Repr

/-- Matrix-vector product. -/
def Mat3.mulVec (m : Mat3) (v : Vec3) : Vec3 :=
  ⟨Vec3.dot m.r0 v, Vec3.dot m.r1 v, Vec3.dot m.r2 v⟩

/-- The particle state P2G-1 reads (spec section 3): position, velocity,
the affine matrix `C`, and the constant mass. -/
structure SimParticle where
  position : Vec3
  velocity : Vec3
  affine : Mat3
  mass : ℚ
deriving DecidableEq, Repr

/-- Modelled from the spec: the grid cell a stencil offset addresses. -/
def stencilCell (p : SimParticle) (o : ℤ × ℤ × ℤ) : ℤ × ℤ × ℤ :=
  (baseCell p.position.x + o.1, baseCell p.position.y + o.2.1, baseCell p.position.z + o.2.2)

/-- Modelled from the spec: the combined (multiplicative) interpolation
weight of one stencil cell. -/
def stencilWeight (p : SimParticle) (o : ℤ × ℤ × ℤ) : ℚ :=
  bsplineW (fracOffset p.position.x) o.1 *
  bsplineW (fracOffset p.position.y) o.2.1 *
  bsplineW (fracOffset p.position.z) o.2.2

/-- Modelled from the spec: the vector from the particle position to the
center of a stencil cell, in grid units; the cell center of integer cell
`i` is taken at `i + 1/2` per axis. -/
def cellOffsetVec (p : SimParticle) (o : ℤ × ℤ × ℤ) : Vec3 :=
  let c := stencilCell p o
  ⟨(c.1 : ℚ) + 1/2 - p.position.x,
   (c.2.1 : ℚ) + 1/2 - p.position.y,
   (c.2.2 : ℚ) + 1/2 - p.position.z⟩

/-- Modelled from the spec: the mass one particle scatters into one grid
cell during P2G-1 — `weight * mass` when the cell is in the particle's
stencil, zero otherwise. -/
def p2g1MassContribution (p : SimParticle) (cell : ℤ × ℤ × ℤ) : ℚ :=
  (stencilOffsets.map
    (fun o => if stencilCell p o = cell then stencilWeight p o * p.mass else 0)).sum

/-- Modelled from the spec: the momentum one particle scatters into one
grid cell during P2G-1 — `weight * mass * (velocity + C · offset)`. -/
def p2g1MomentumContribution (p : SimParticle) (cell : ℤ × ℤ × ℤ) : Vec3 :=
  (stencilOffsets.map
    (fun o => if stencilCell p o = cell then
        Vec3.smul (stencilWeight p o * p.mass)
          (p.velocity.add (p.affine.mulVec (cellOffsetVec p o)))
      else Vec3.zero)).foldr Vec3.add Vec3.zero

/-- Modelled from the spec: a grid cell's mass after P2G Pass 1 over the
active particle list (the grid is zeroed by Grid Reset, and atomic adds
accumulate every particle's contribution). -/
def gridMassAfterP2G1 (ps : List SimParticle) (cell : ℤ × ℤ × ℤ) : ℚ :=
  (ps.map (fun p => p2g1MassContribution p cell)).sum

/-- Modelled from the spec: a grid cell's momentum after P2G Pass 1. -/
def gridMomentumAfterP2G1 (ps : List SimParticle) (cell : ℤ × ℤ × ℤ) : Vec3 :=
  (ps.map (fun p => p2g1MomentumContribution p cell)).foldr Vec3.add Vec3.zero

/-- Modelled from the spec: clamp of one coordinate into the valid domain
`[marginLow, gridSize - marginHigh]` (spec sections 3 and 4.5). -/
def clampCoord (marginLow marginHigh gridSize x : ℚ) : ℚ :=
  max marginLow (min x (gridSize - marginHigh))

/-- Modelled from the spec: the final position-producing steps of G2P
(spec section 4.5) — advance `position += velocity * dt`, then
defensively clamp `position` into the valid domain. -/
def g2pAdvancePosition (marginLow marginHigh gridSize dt : ℚ) (pos vel : Vec3) : Vec3 :=
  let q := pos.add (Vec3.smul dt vel)
  ⟨clampCoord marginLow marginHigh gridSize q.x,
   clampCoord marginLow marginHigh gridSize q.y,
   clampCoord marginLow marginHigh gridSize q.z⟩

/-- A concrete particle used as a test input: position `(3/2, 3/2, 3/2)`
(base cell `(1,1,1)`), at rest, zero affine field, mass 2. -/
def sampleParticle : SimParticle :=
  { position := ⟨3/2, 3/2, 3/2⟩, velocity := ⟨0, 0, 0⟩,
    affine := ⟨Vec3.zero, Vec3.zero, Vec3.zero⟩, mass := 2 }

/-- The set of grid cells covered by `sampleParticle`'s stencil, a concrete
finite cell set containing all of its contributions. -/
def sampleCells : Finset (ℤ × ℤ × ℤ) :=
  (stencilOffsets.map (stencilCell sampleParticle)).toFinset

/-- C1: applying the Dense Cloud preset after the mobile constructor path
leaves `particles = 8192 * 12` above `maxParticles = 8192 * 8`: the preset
assignment performs no bound check against `maxParticles`, so the claimed
invariant `count ≤ maxParticles` is violated by the code at this input. -/
theorem mobile_denseCloud_exceeds_maxParticles :
    (Conf.applyPreset (Conf.new true) ("Dense Cloud")).particles = 8192 * 12 ∧
    (Conf.applyPreset (Conf.new true) ("Dense Cloud")).maxParticles = 8192 * 8 ∧
    (Conf.applyPreset (Conf.new true) ("Dense Cloud")).maxParticles
      < (Conf.applyPreset (Conf.new true) ("Dense Cloud")).particles := by
  refine ⟨rfl, rfl, ?_⟩
  have h1 : (Conf.applyPreset (Conf.new true) ("Dense Cloud")).maxParticles = 8192 * 8 := rfl
  have h2 : (Conf.applyPreset (Conf.new true) ("Dense Cloud")).particles = 8192 * 12 := rfl
  rw [h1, h2]
  norm_num

/-- C7: `Conf.updateParams` computes
`restDensity = 0.25 * max(particles / 8192, 1) * density`, which is
strictly positive whenever `density > 0` (and in particular whenever
`particles > 0` too), so a negative `restDensity` is unreachable through
this parameter-update path. -/
theorem updateParams_restDensity_pos (c : Conf)
    (hp : 0 < c.particles) (hd : 0 < c.density) :
    c.updateParams.restDensity = 1/4 * max (c.particles / 8192) 1 * c.density ∧
    0 < c.updateParams.restDensity := by
  refine ⟨rfl, ?_⟩
  have hform : c.updateParams.restDensity
      = 1/4 * max (c.particles / 8192) 1 * c.density := rfl
  have hL : (1:ℚ) ≤ max (c.particles / 8192) 1 := le_max_right _ _
  rw [hform]
  nlinarith [mul_nonneg (sub_nonneg.mpr hL) hd.le]

/-- Witness for C7 at the default configuration. -/
theorem updateParams_restDensity_pos_witness :
    (0:ℚ) < Conf.defaults.particles ∧ (0:ℚ) < Conf.defaults.density ∧
    0 < Conf.defaults.updateParams.restDensity :=
  ⟨by norm_num [Conf.defaults], by norm_num [Conf.defaults],
   (updateParams_restDensity_pos Conf.defaults (by norm_num [Conf.defaults])
      (by norm_num [Conf.defaults])).2⟩

/-- C10 counterexample: the name "constructor" is outside the four preset
names, yet `Conf.applyPreset` with it is not a no-op — `presets[name]`
resolves through the prototype chain to the truthy built-in `Object`, so
`updateParams()` and `gui.refresh()` run (observable here in the
`guiRefreshes` counter), refuting the claimed universal no-op. -/
theorem applyPreset_constructor_not_noop :
    ("constructor" ∉ ["Calm", "Storm", "Dense Cloud", "Light Mist"]) ∧
    Conf.defaults.applyPreset ("constructor") ≠ Conf.defaults := by
  refine ⟨by decide, fun heq => ?_⟩
  have h1 : (Conf.defaults.applyPreset ("constructor")).guiRefreshes = 1 := rfl
  rw [heq] at h1
  exact absurd h1 (by decide)

/-- C10 (amended): `Conf.applyPreset` with a name outside the four preset
names that is also not an `Object.prototype` property name leaves the
configuration state entirely unchanged (`presets[name]` is `undefined`:
no field assigned, no `updateParams`, no GUI refresh); for an inherited
`Object.prototype` name the lookup is truthy but has no enumerable own
entries, so no configuration field is assigned, yet `updateParams` runs
and the GUI is refreshed. -/
theorem applyPreset_unknown_name_behavior (c : Conf) (name : String)
    (h : name ∉ ["Calm", "Storm", "Dense Cloud", "Light Mist"]) :
    (name ∉ objectPrototypeKeys → c.applyPreset name = c) ∧
    (name ∈ objectPrototypeKeys →
      c.applyPreset name
        = { c.updateParams with guiRefreshes := c.updateParams.guiRefreshes + 1 }) := by
  simp only [List.mem_cons, List.not_mem_nil, or_false, not_or] at h
  obtain ⟨h1, h2, h3, h4⟩ := h
  have htable : presetTable name = none := by
    simp [presetTable, h1, h2, h3, h4]
  constructor
  · intro hproto
    simp [Conf.applyPreset, presetLookup, htable, hproto]
  · intro hproto
    simp [Conf.applyPreset, presetLookup, htable, hproto]

/-- Witness for the amended C10: a name in neither list leaves the
default state untouched. -/
theorem applyPreset_unknown_name_behavior_witness :
    ("Rainy" ∉ ["Calm", "Storm", "Dense Cloud", "Light Mist"]) ∧
    ("Rainy" ∉ objectPrototypeKeys) ∧
    Conf.defaults.applyPreset ("Rainy") = Conf.defaults :=
  ⟨by decide, by decide,
   (applyPreset_unknown_name_behavior Conf.defaults ("Rainy") (by decide)).1 (by decide)⟩

/-- C9: `Conf.setupGravitySensor` is idempotent — a first call (sensor
absent) creates exactly one started `GravitySensor({frequency: 60})`, a
later call (sensor present) returns immediately and is the identity, so
calling it twice equals calling it once. -/
theorem setupGravitySensor_idempotent (c : Conf) :
    c.setupGravitySensor.setupGravitySensor = c.setupGravitySensor ∧
    (c.gravitySensor = none →
      c.setupGravitySensor.gravitySensor = some { frequency := 60, started := true } ∧
      c.setupGravitySensor.sensorsCreated = c.sensorsCreated + 1) ∧
    (∀ s, c.gravitySensor = some s → c.setupGravitySensor = c) := by
  cases h : c.gravitySensor with
  | none =>
    refine ⟨?_, ?_, ?_⟩
    · simp [Conf.setupGravitySensor, h]
    · intro _
      constructor <;> simp [Conf.setupGravitySensor, h]
    · intro s hs
      cases hs
  | some s =>
    refine ⟨?_, ?_, ?_⟩
    · simp [Conf.setupGravitySensor, h]
    · intro hn
      cases hn
    · intro t ht
      simp [Conf.setupGravitySensor, h]

/-- Witness for C9 from the default (sensor-free) configuration. -/
theorem setupGravitySensor_idempotent_witness :
    Conf.defaults.setupGravitySensor.setupGravitySensor
      = Conf.defaults.setupGravitySensor ∧
    Conf.defaults.setupGravitySensor.sensorsCreated
      = Conf.defaults.sensorsCreated + 1 :=
  ⟨(setupGravitySensor_idempotent Conf.defaults).1,
   ((setupGravitySensor_idempotent Conf.defaults).2.1 rfl).2⟩

/-- C6: the gravity control offers exactly the four modes back=0, down=1,
center=2, device=3; selecting mode 3 starts the gravity sensor; a sensor
reading is stored scaled by 1/50 with its Y component negated; and a new
reading overwrites the previous one completely (no internal state beyond
the last received value). -/
theorem gravity_mode_control (c : Conf) (s sPrev : Vec3) :
    gravityOptions = [("back", 0), ("down", 1), ("center", 2), ("device gravity", 3)] ∧
    (∀ v, (c.onGravityChange v).gravity = v) ∧
    (c.onGravityChange 3).gravitySensor.isSome = true ∧
    (c.onGravitySensorReading s).gravitySensorReading
      = ⟨s.x / 50, -(s.y / 50), s.z / 50⟩ ∧
    (c.onGravitySensorReading sPrev).onGravitySensorReading s
      = c.onGravitySensorReading s := by
  refine ⟨rfl, ?_, ?_, ?_, ?_⟩
  · intro v
    by_cases hv : v = 3 <;> simp [Conf.onGravityChange, hv]
  · cases h : c.gravitySensor <;>
      simp [Conf.onGravityChange, Conf.setupGravitySensor, h]
  · simp only [Conf.onGravitySensorReading, Vec3.mk.injEq]
    refine ⟨trivial, by ring, trivial⟩
  · rfl

/-- C4: one `App.update(delta, elapsed)` call performs exactly one
simulator advance, carrying the frame's delta, followed by exactly one
frame render (post-processing when bloom is on, direct otherwise), in
that order: the trace restricted to these two kinds of events is
precisely `[simUpdate delta elapsed, render]`. -/
theorem appUpdate_single_sim_then_render (bloom : Bool) (delta elapsed : ℚ) :
    (appUpdateTrace bloom delta elapsed).filter
        (fun ev => ev.isSimUpdate || ev.isRender)
      = [AppEvent.simUpdate delta elapsed,
         if bloom then AppEvent.renderPostProcessing else AppEvent.renderScene] := by
  cases bloom <;> rfl

/-- C5: on a pointer-move event whose camera ray intersects the
interaction plane, `App.onMouseMove` passes the ray origin, ray direction
and the ray-plane intersection point to `setMouseRay`; and with no
pointer-move event the previously set interaction point is untouched. -/
theorem onMouseMove_intersecting_sets_ray (origin dir : Vec3) (pl : Plane)
    (st : SimMouseState) (p : Vec3)
    (h : rayIntersectPlane origin dir pl = some p) :
    (App.onMouseMove origin dir pl st).mouseRay = some (origin, dir, p) ∧
    processPointerMoves [] pl st = st := by
  constructor
  · simp [App.onMouseMove, h, setMouseRay]
  · rfl

/-- Witness for C5: a ray from the origin along +Z hits the app's
interaction plane `z = 0.2` at `(0, 0, 1/5)`. -/
theorem onMouseMove_intersecting_sets_ray_witness :
    rayIntersectPlane ⟨0, 0, 0⟩ ⟨0, 0, 1⟩ appPlane = some ⟨0, 0, 1/5⟩ ∧
    (App.onMouseMove ⟨0, 0, 0⟩ ⟨0, 0, 1⟩ appPlane ⟨none⟩).mouseRay
      = some (⟨0, 0, 0⟩, ⟨0, 0, 1⟩, ⟨0, 0, 1/5⟩) := by
  have h : rayIntersectPlane ⟨0, 0, 0⟩ ⟨0, 0, 1⟩ appPlane = some ⟨0, 0, 1/5⟩ := by
    norm_num [rayIntersectPlane, rayDistanceToPlane, appPlane, Vec3.dot,
      Vec3.add, Vec3.smul, Vec3.mk.injEq]
  exact ⟨h, (onMouseMove_intersecting_sets_ray ⟨0, 0, 0⟩ ⟨0, 0, 1⟩ appPlane ⟨none⟩
    ⟨0, 0, 1/5⟩ h).1⟩

/-- C8: the `if (intersect)` guard in `App.onMouseMove` tests the
pre-allocated `Vector3` object, which is always truthy, so even when the
camera ray does not intersect the plane, `setMouseRay` is still called —
with the unwritten (still zero) intersection vector as the interaction
point. -/
theorem onMouseMove_nonintersecting_still_calls_setMouseRay
    (origin dir : Vec3) (pl : Plane) (st : SimMouseState)
    (h : rayIntersectPlane origin dir pl = none) :
    (App.onMouseMove origin dir pl st).mouseRay = some (origin, dir, Vec3.zero) := by
  simp [App.onMouseMove, h, setMouseRay]

/-- Witness for C8: a ray parallel to the app's interaction plane and off
it has no intersection, yet the interaction point is set to the zero
vector. -/
theorem onMouseMove_nonintersecting_still_calls_setMouseRay_witness :
    rayIntersectPlane ⟨0, 0, 0⟩ ⟨1, 0, 0⟩ appPlane = none ∧
    (App.onMouseMove ⟨0, 0, 0⟩ ⟨1, 0, 0⟩ appPlane ⟨none⟩).mouseRay
      = some (⟨0, 0, 0⟩, ⟨1, 0, 0⟩, Vec3.zero) := by
  have h : rayIntersectPlane ⟨0, 0, 0⟩ ⟨1, 0, 0⟩ appPlane = none := by
    norm_num [rayIntersectPlane, rayDistanceToPlane, appPlane, Vec3.dot]
  exact ⟨h, onMouseMove_nonintersecting_still_calls_setMouseRay
    ⟨0, 0, 0⟩ ⟨1, 0, 0⟩ appPlane ⟨none⟩ h⟩

/-- Each coordinate produced by the defensive clamp lies in the valid
domain interval, whenever that interval is nonempty. -/
theorem clampCoord_mem (marginLow marginHigh gridSize x : ℚ)
    (h : marginLow ≤ gridSize - marginHigh) :
    marginLow ≤ clampCoord marginLow marginHigh gridSize x ∧
    clampCoord marginLow marginHigh gridSize x ≤ gridSize - marginHigh := by
  unfold clampCoord
  exact ⟨le_max_left _ _, max_le h (min_le_right _ _)⟩

/-- C2: after the final G2P step — advance by `velocity * dt`, then
defensively clamp — the particle position lies in
`[marginLow, gridSize - marginHigh]^3`, for every starting position and
velocity (hence even under numerical escape), provided the domain
interval is nonempty. -/
theorem g2p_clamped_position_in_domain
    (marginLow marginHigh gridSize dt : ℚ)
    (h : marginLow ≤ gridSize - marginHigh) (pos vel : Vec3) :
    (marginLow ≤ (g2pAdvancePosition marginLow marginHigh gridSize dt pos vel).x ∧
      (g2pAdvancePosition marginLow marginHigh gridSize dt pos vel).x ≤ gridSize - marginHigh) ∧
    (marginLow ≤ (g2pAdvancePosition marginLow marginHigh gridSize dt pos vel).y ∧
      (g2pAdvancePosition marginLow marginHigh gridSize dt pos vel).y ≤ gridSize - marginHigh) ∧
    (marginLow ≤ (g2pAdvancePosition marginLow marginHigh gridSize dt pos vel).z ∧
      (g2pAdvancePosition marginLow marginHigh gridSize dt pos vel).z ≤ gridSize - marginHigh) :=
  ⟨clampCoord_mem _ _ _ _ h, clampCoord_mem _ _ _ _ h, clampCoord_mem _ _ _ _ h⟩

/-- Witness for C2: a particle that escaped to `(1100, -5, 3)` with the
64-cell grid and margins 1 and 2 is clamped back into the domain. -/
theorem g2p_clamped_position_in_domain_witness :
    ((1:ℚ) ≤ 64 - 2) ∧
    (((1:ℚ) ≤ (g2pAdvancePosition 1 2 64 1 ⟨100, -5, 3⟩ ⟨1000, 0, 0⟩).x ∧
      (g2pAdvancePosition 1 2 64 1 ⟨100, -5, 3⟩ ⟨1000, 0, 0⟩).x ≤ 64 - 2) ∧
     ((1:ℚ) ≤ (g2pAdvancePosition 1 2 64 1 ⟨100, -5, 3⟩ ⟨1000, 0, 0⟩).y ∧
      (g2pAdvancePosition 1 2 64 1 ⟨100, -5, 3⟩ ⟨1000, 0, 0⟩).y ≤ 64 - 2) ∧
     ((1:ℚ) ≤ (g2pAdvancePosition 1 2 64 1 ⟨100, -5, 3⟩ ⟨1000, 0, 0⟩).z ∧
      (g2pAdvancePosition 1 2 64 1 ⟨100, -5, 3⟩ ⟨1000, 0, 0⟩).z ≤ 64 - 2)) :=
  ⟨by norm_num,
   g2p_clamped_position_in_domain 1 2 64 1 (by norm_num) ⟨100, -5, 3⟩ ⟨1000, 0, 0⟩⟩

/-- Unfolding of the first quadratic B-spline weight. -/
theorem bsplineW_zero (f : ℚ) : bsplineW f 0 = 1/2 * (3/2 - f) ^ 2 := rfl

/-- Unfolding of the middle quadratic B-spline weight. -/
theorem bsplineW_one (f : ℚ) : bsplineW f 1 = 3/4 - (f - 1) ^ 2 := rfl

/-- Unfolding of the last quadratic B-spline weight. -/
theorem bsplineW_two (f : ℚ) : bsplineW f 2 = 1/2 * (f - 1/2) ^ 2 := rfl

/-- The three per-axis quadratic B-spline weights sum to 1 at every
fractional offset — the partition-of-unity property of the kernel. -/
theorem bsplineW_sum (f : ℚ) : bsplineW f 0 + bsplineW f 1 + bsplineW f 2 = 1 := by
  rw [bsplineW_zero, bsplineW_one, bsplineW_two]
  ring

/-- The 27 combined stencil weights of any particle sum to 1: the triple
sum factors into the product of the three per-axis partition-of-unity
sums. -/
theorem stencilWeight_sum (p : SimParticle) :
    (stencilOffsets.map (fun o => stencilWeight p o)).sum = 1 := by
  have hx := bsplineW_sum (fracOffset p.position.x)
  have hy := bsplineW_sum (fracOffset p.position.y)
  have hz := bsplineW_sum (fracOffset p.position.z)
  simp only [stencilOffsets, stencilWeight, List.map_cons, List.map_nil,
    List.sum_cons, List.sum_nil, add_zero]
  linear_combination
    ((bsplineW (fracOffset p.position.y) 0 + bsplineW (fracOffset p.position.y) 1 +
        bsplineW (fracOffset p.position.y) 2) *
      (bsplineW (fracOffset p.position.z) 0 + bsplineW (fracOffset p.position.z) 1 +
        bsplineW (fracOffset p.position.z) 2)) * hx +
    (bsplineW (fracOffset p.position.z) 0 + bsplineW (fracOffset p.position.z) 1 +
      bsplineW (fracOffset p.position.z) 2) * hy + hz

/-- A finite-set sum of a list sum can be exchanged. -/
theorem finsetSum_listSum {α γ : Type} (S : Finset γ) (L : List α) (g : α → γ → ℚ) :
    Finset.sum S (fun c => (L.map (fun o => g o c)).sum)
      = (L.map (fun o => Finset.sum S (fun c => g o c))).sum := by
  induction L with
  | nil => simp
  | cons a l ih =>
    simp only [List.map_cons, List.sum_cons]
    rw [Finset.sum_add_distrib, ih]

/-- Summed over any cell set containing its whole stencil, one particle's
P2G-1 mass contribution is exactly its mass. -/
theorem p2g1_particle_total (p : SimParticle) (S : Finset (ℤ × ℤ × ℤ))
    (hS : ∀ o ∈ stencilOffsets, stencilCell p o ∈ S) :
    Finset.sum S (fun c => p2g1MassContribution p c) = p.mass := by
  unfold p2g1MassContribution
  rw [finsetSum_listSum]
  have hmap : stencilOffsets.map
      (fun o => Finset.sum S
        (fun c => if stencilCell p o = c then stencilWeight p o * p.mass else 0))
      = stencilOffsets.map (fun o => stencilWeight p o * p.mass) := by
    apply List.map_congr_left
    intro o ho
    rw [Finset.sum_ite_eq S (stencilCell p o) (fun _ => stencilWeight p o * p.mass),
      if_pos (hS o ho)]
  rw [hmap, List.sum_map_mul_right, stencilWeight_sum, one_mul]

/-- Total grid mass after P2G-1 equals the total particle mass, for any
cell set containing every active particle's stencil. -/
theorem gridMass_total (ps : List SimParticle) (S : Finset (ℤ × ℤ × ℤ))
    (hS : ∀ p ∈ ps, ∀ o ∈ stencilOffsets, stencilCell p o ∈ S) :
    Finset.sum S (gridMassAfterP2G1 ps) = (ps.map SimParticle.mass).sum := by
  induction ps with
  | nil => simp [gridMassAfterP2G1]
  | cons p l ih =>
    have hpt : ∀ c, gridMassAfterP2G1 (p :: l) c
        = p2g1MassContribution p c + gridMassAfterP2G1 l c := by
      intro c
      simp [gridMassAfterP2G1]
    calc Finset.sum S (gridMassAfterP2G1 (p :: l))
        = Finset.sum S (fun c => p2g1MassContribution p c + gridMassAfterP2G1 l c) :=
          Finset.sum_congr rfl (fun c _ => hpt c)
      _ = Finset.sum S (fun c => p2g1MassContribution p c)
          + Finset.sum S (gridMassAfterP2G1 l) := Finset.sum_add_distrib
      _ = p.mass + (l.map SimParticle.mass).sum := by
          rw [p2g1_particle_total p S (hS p (by simp)),
            ih (fun q hq o ho => hS q (by simp [hq]) o ho)]
      _ = ((p :: l).map SimParticle.mass).sum := by simp

/-- A particle contributes zero P2G-1 mass to a cell outside its stencil. -/
theorem p2g1MassContribution_outside (p : SimParticle) (cell : ℤ × ℤ × ℤ)
    (h : ∀ o ∈ stencilOffsets, stencilCell p o ≠ cell) :
    p2g1MassContribution p cell = 0 := by
  unfold p2g1MassContribution
  apply List.sum_eq_zero
  intro x hx
  simp only [List.mem_map] at hx
  obtain ⟨o, ho, rfl⟩ := hx
  simp [h o ho]

/-- A fold of componentwise vector addition over all-zero vectors is zero. -/
theorem vec3_foldr_add_zero (l : List Vec3) (h : ∀ v ∈ l, v = Vec3.zero) :
    l.foldr Vec3.add Vec3.zero = Vec3.zero := by
  induction l with
  | nil => rfl
  | cons a t ih =>
    have ha : a = Vec3.zero := h a (by simp)
    have ht := ih (fun v hv => h v (by simp [hv]))
    rw [List.foldr_cons, ht, ha]
    simp [Vec3.add, Vec3.zero]

/-- A particle contributes zero P2G-1 momentum to a cell outside its
stencil. -/
theorem p2g1MomentumContribution_outside (p : SimParticle) (cell : ℤ × ℤ × ℤ)
    (h : ∀ o ∈ stencilOffsets, stencilCell p o ≠ cell) :
    p2g1MomentumContribution p cell = Vec3.zero := by
  unfold p2g1MomentumContribution
  apply vec3_foldr_add_zero
  intro v hv
  simp only [List.mem_map] at hv
  obtain ⟨o, ho, rfl⟩ := hv
  simp [h o ho]

/-- A cell outside every active particle's stencil has zero mass after
P2G-1. -/
theorem gridMass_outside (ps : List SimParticle) (cell : ℤ × ℤ × ℤ)
    (h : ∀ p ∈ ps, ∀ o ∈ stencilOffsets, stencilCell p o ≠ cell) :
    gridMassAfterP2G1 ps cell = 0 := by
  unfold gridMassAfterP2G1
  apply List.sum_eq_zero
  intro x hx
  simp only [List.mem_map] at hx
  obtain ⟨p, hp, rfl⟩ := hx
  exact p2g1MassContribution_outside p cell (h p hp)

/-- A cell outside every active particle's stencil has zero momentum after
P2G-1. -/
theorem gridMomentum_outside (ps : List SimParticle) (cell : ℤ × ℤ × ℤ)
    (h : ∀ p ∈ ps, ∀ o ∈ stencilOffsets, stencilCell p o ≠ cell) :
    gridMomentumAfterP2G1 ps cell = Vec3.zero := by
  unfold gridMomentumAfterP2G1
  apply vec3_foldr_add_zero
  intro v hv
  simp only [List.mem_map] at hv
  obtain ⟨p, hp, rfl⟩ := hv
  exact p2g1MomentumContribution_outside p cell (h p hp)

/-- C3: after P2G Pass 1 the total grid mass over any cell set containing
every active particle's stencil (in particular over the whole grid when
all stencils are in range) equals the total mass of the active particles
— exactly, in this rational model, because the 27 stencil weights sum to
1 at every particle position — and any cell outside all stencils has mass
and momentum exactly zero. -/
theorem p2g1_mass_conservation_and_locality
    (ps : List SimParticle) (S : Finset (ℤ × ℤ × ℤ))
    (hS : ∀ p ∈ ps, ∀ o ∈ stencilOffsets, stencilCell p o ∈ S)
    (cell : ℤ × ℤ × ℤ)
    (hout : ∀ p ∈ ps, ∀ o ∈ stencilOffsets, stencilCell p o ≠ cell) :
    Finset.sum S (gridMassAfterP2G1 ps) = (ps.map SimParticle.mass).sum ∧
    gridMassAfterP2G1 ps cell = 0 ∧
    gridMomentumAfterP2G1 ps cell = Vec3.zero :=
  ⟨gridMass_total ps S hS, gridMass_outside ps cell hout,
   gridMomentum_outside ps cell hout⟩

/-- Witness for C3: one particle of mass 2 at `(3/2, 3/2, 3/2)`, the cell
set covered by its stencil, and the far-away cell `(100, 100, 100)`. -/
theorem p2g1_mass_conservation_and_locality_witness :
    (∀ p ∈ [sampleParticle], ∀ o ∈ stencilOffsets, stencilCell p o ∈ sampleCells) ∧
    (∀ p ∈ [sampleParticle], ∀ o ∈ stencilOffsets,
      stencilCell p o ≠ ((100, 100, 100) : ℤ × ℤ × ℤ)) ∧
    (Finset.sum sampleCells (gridMassAfterP2G1 [sampleParticle])
        = ([sampleParticle].map SimParticle.mass).sum ∧
      gridMassAfterP2G1 [sampleParticle] ((100, 100, 100) : ℤ × ℤ × ℤ) = 0 ∧
      gridMomentumAfterP2G1 [sampleParticle] ((100, 100, 100) : ℤ × ℤ × ℤ) = Vec3.zero) := by
  have hS : ∀ p ∈ [sampleParticle], ∀ o ∈ stencilOffsets, stencilCell p o ∈ sampleCells := by
    intro p hp o ho
    simp only [List.mem_singleton] at hp
    subst hp
    exact List.mem_toFinset.mpr (List.mem_map_of_mem _ ho)
  have hbx : baseCell sampleParticle.position.x = 1 := by
    simp only [sampleParticle, baseCell]
    norm_num [Int.floor_one]
  have hby : baseCell sampleParticle.position.y = 1 := by
    simp only [sampleParticle, baseCell]
    norm_num [Int.floor_one]
  have hbz : baseCell sampleParticle.position.z = 1 := by
    simp only [sampleParticle, baseCell]
    norm_num [Int.floor_one]
  have hofs : ∀ o ∈ stencilOffsets, o.1 ≤ 2 ∧ o.2.1 ≤ 2 ∧ o.2.2 ≤ 2 := by decide
  have hout : ∀ p ∈ [sampleParticle], ∀ o ∈ stencilOffsets,
      stencilCell p o ≠ ((100, 100, 100) : ℤ × ℤ × ℤ) := by
    intro p hp o ho heq
    simp only [List.mem_singleton] at hp
    subst hp
    have hb3 := hofs o ho
    simp only [stencilCell, hbx, hby, hbz, Prod.mk.injEq] at heq
    omega
  exact ⟨hS, hout,
    p2g1_mass_conservation_and_locality [sampleParticle] sampleCells hS _ hout⟩
